import Mathlib

/-!
Verification of the GxG statistical engine of the Acequia repository
(`acequia/stats/gxg.py`, class `GxgStats`).

The Python code is shallowly embedded over exact rationals: a float is a
rational, a NaN (missing value) is `none : Option ℚ`, a raised exception is
`Except.error`, and an emitted warning is an element of a `List String`
returned next to the result.  Python's `round` and `numpy.round` both round
half to even, which `roundHE` mirrors.
-/

namespace Acequia

/-! ## String constants of the source -/

def sDatum : String := "datum"

def sSurface : String := "surface"

def sHg3 : String := "hg3"

def sLg3 : String := "lg3"

def sHg3w : String := "hg3w"

def sLg3s : String := "lg3s"

def sVg3 : String := "vg3"

def sVgApr1 : String := "vg_apr1"

def sVgApr15 : String := "vg_apr15"

def sVgMar15 : String := "vg_mar15"

def sN1428 : String := "n1428"

def sMeasfrq : String := "measfrq"

def sGt : String := "gt"

def sReflev : String := "reflev"

def sGhg : String := "ghg"

def sGlg : String := "glg"

def sVg : String := "vg"

def sGvg : String := "gvg"

def sMaxfrq : String := "maxfrq"

def fSLUIJS82 : String := "SLUIJS82"

def fHEESEN74 : String := "HEESEN74"

def fSLUIJS76a : String := "SLUIJS76a"

def fSLUIJS76b : String := "SLUIJS76b"

def fSLUIJS89pol : String := "SLUIJS89pol"

def fSLUIJS89sto : String := "SLUIJS89sto"

def fRUNHAAR89 : String := "RUNHAAR89"

def fGAAST06 : String := "GAAST06"

/-- The misspelled first entry of the membership test on line 518 of the
source (`'SLUIS89pol'`), kept verbatim: it differs from the formula name
`'SLUIJS89pol'` in `APPROXIMATIONS`. -/
def fSLUIS89polTypo : String := "SLUIS89pol"

/-- The misspelled second entry of the membership test on line 518 of the
source (`'SLUIS89sto'`). -/
def fSLUIS89stoTypo : String := "SLUIS89sto"

def APPROXIMATIONS : List String :=
  [fSLUIJS82, fHEESEN74, fSLUIJS76a, fSLUIJS76b,
   fSLUIJS89pol, fSLUIJS89sto, fRUNHAAR89, fGAAST06]

def cI : String := "I"

def cII : String := "II"

def cIIst : String := "II*"

def cIII : String := "III"

def cIIIst : String := "III*"

def cIV : String := "IV"

def cV : String := "V"

def cVst : String := "V*"

def cVI : String := "VI"

def cVII : String := "VII"

def cVIIst : String := "VII*"

def wReflevNone : String :=
  "Reference level None is not allowed. Reference level datum is assumed."

def wUnknownFormula (f : String) : String :=
  "GVG approximation formula name " ++ f ++
    " not recognised. SLUIJS82 is assumed."

def eInvalidReflev : String := "Reference level is not valid."

/-- Message of the pandas KeyError raised when a date is looked up outside
the canonical index. -/
def eKeyError : String := "KeyError: date not in the canonical index"

/-- Message of the ValueError raised by Python's builtin `round` on NaN
when called without a decimals argument. -/
def eRoundNaN : String := "cannot convert float NaN to integer"

def eUnknownFormula (f : String) : String :=
  f ++ " was not recognised as a gvg approximation formula."

/-! ## Numeric primitives -/

/-- Floor of a rational, written with `Int.fdiv` so that it evaluates
inside the kernel. -/
def ratFloor (x : ℚ) : ℤ := Int.fdiv x.num x.den

/-- Round half to even, the rounding used by Python's builtin `round` and by
`numpy.round`. -/
def roundHE (x : ℚ) : ℤ :=
  if x - ratFloor x < 1/2 then ratFloor x
  else if 1/2 < x - ratFloor x then ratFloor x + 1
  else if ratFloor x % 2 = 0 then ratFloor x else ratFloor x + 1

/-- Source `round(x, 2)`: round half to even at two decimals. -/
def round2 (x : ℚ) : ℚ := (roundHE (100 * x) : ℚ) / 100

/-- Arithmetic mean of a list (meaningful for nonempty lists). -/
def qmean (xs : List ℚ) : ℚ := xs.sum / xs.length

/-- Source `numpy.nanmean` over a column with missing values: the mean of the
present values, missing when all are missing. -/
def nanmean (xs : List (Option ℚ)) : Option ℚ :=
  let vs := xs.filterMap id
  if vs.isEmpty then none else some (qmean vs)

/-! ## Groundwater class (`GxgStats.gt`, lines 438-486) -/

/-- The ordered chain of range conditions of `GxgStats.gt` applied to the
computed depths, translated verbatim: in particular the literals `0.120`
(not `1.20`) in the conditions for III, III*, IV, V, V* and VI are the
literals of the source. -/
def gtClassify (ghg glg : ℚ) : Option String :=
  if ghg < 0.20 ∧ glg < 0.50 then some cI
  else if ghg < 0.25 ∧ (0.50 < glg ∧ glg < 0.80) then some cII
  else if (0.25 < ghg ∧ ghg < 0.40) ∧ (0.50 < glg ∧ glg < 0.80) then some cIIst
  else if ghg < 0.25 ∧ (0.80 < glg ∧ glg < 0.120) then some cIII
  else if (0.25 < ghg ∧ ghg < 0.40) ∧ (0.80 < glg ∧ glg < 0.120) then some cIIIst
  else if 0.40 < ghg ∧ (0.80 < glg ∧ glg < 0.120) then some cIV
  else if ghg < 0.25 ∧ 0.120 < glg then some cV
  else if (0.25 < ghg ∧ ghg < 0.40) ∧ 0.120 < glg then some cVst
  else if (0.40 < ghg ∧ ghg < 0.80) ∧ 0.120 < glg then some cVI
  else if 0.80 < ghg ∧ ghg < 1.40 then some cVII
  else if 1.40 < ghg then some cVIIst
  else none

/-- Modelled from the spec: the section 4.3a decision table as printed,
with the range 0.80-1.20 written out (upper bound `1.20` where the source
has `0.120`), same ordering and same boundary strictness as the source
chain.  Used only to exhibit the divergence between the table and the
source. -/
def gtSpecTable (ghg glg : ℚ) : Option String :=
  if ghg < 0.20 ∧ glg < 0.50 then some cI
  else if ghg < 0.25 ∧ (0.50 < glg ∧ glg < 0.80) then some cII
  else if (0.25 < ghg ∧ ghg < 0.40) ∧ (0.50 < glg ∧ glg < 0.80) then some cIIst
  else if ghg < 0.25 ∧ (0.80 < glg ∧ glg < 1.20) then some cIII
  else if (0.25 < ghg ∧ ghg < 0.40) ∧ (0.80 < glg ∧ glg < 1.20) then some cIIIst
  else if 0.40 < ghg ∧ (0.80 < glg ∧ glg < 1.20) then some cIV
  else if ghg < 0.25 ∧ 1.20 < glg then some cV
  else if (0.25 < ghg ∧ ghg < 0.40) ∧ 1.20 < glg then some cVst
  else if (0.40 < ghg ∧ ghg < 0.80) ∧ 1.20 < glg then some cVI
  else if 0.80 < ghg ∧ ghg < 1.40 then some cVII
  else if 1.40 < ghg then some cVIIst
  else none

/-- Source `GxgStats.gt` from the cross-year means of the `hg3` and `lg3` columns:
the mean is scaled to centimeters and subtracted from the surface level
before the classification chain runs.  When either mean is missing every
comparison with NaN is false in the source and the chain falls through to
`None`. -/
def gtFromMeans (surflevel : ℚ) (mh ml : Option ℚ) : Option String :=
  match mh, ml with
  | some a, some b => gtClassify (surflevel - 100 * a) (surflevel - 100 * b)
  | _, _ => none

/-! ## Spring-level approximation (`GxgStats.gvg_approximate`, lines 490-558) -/

/-- Source `GxgStats.gvg_approximate` on the cross-year column means.  Returns the
emitted warnings next to the outcome; `Except.error` models the
`ValueError` of the final `else` branch.  The membership test selecting the
winter/summer columns uses the misspelled names `SLUIS89pol`/`SLUIS89sto`
exactly as the source does. -/
def gvgApproximate (surflevel : ℚ) (mHg3 mLg3 mHg3w mLg3s : Option ℚ)
    (formulaArg : Option String) : List String × Except String (Option ℚ) :=
  let formula := formulaArg.getD fSLUIJS82
  let warns := if formula ∈ APPROXIMATIONS then [] else [wUnknownFormula formula]
  let mg := if formula = fSLUIS89polTypo ∨ formula = fSLUIS89stoTypo then mHg3w else mHg3
  let ml := if formula = fSLUIS89polTypo ∨ formula = fSLUIS89stoTypo then mLg3s else mLg3
  let GHG := mg.map (fun a => surflevel * 100 - a * 100)
  let GLG := ml.map (fun b => surflevel * 100 - b * 100)
  let app2 (f : ℚ → ℚ → ℚ) : Option ℚ :=
    match GHG, GLG with
    | some g, some l => some (roundHE (f g l) : ℚ)
    | _, _ => none
  let app1 (f : ℚ → ℚ) : Option ℚ := GHG.map (fun g => (roundHE (f g) : ℚ))
  let result : Except String (Option ℚ) :=
    if formula = fHEESEN74 then .ok (app2 (fun G L => 0.2 * (L - G) + G + 12))
    else if formula = fSLUIJS76a then .ok (app2 (fun G L => 0.15 * (L - G) + 1.01 * G + 14.3))
    else if formula = fSLUIJS76b then .ok (app1 (fun G => 1.03 * G + 27.3))
    else if formula = fSLUIJS82 then .ok (app2 (fun G L => 5.4 + 1.02 * G + 0.19 * (L - G)))
    else if formula = fRUNHAAR89 then .ok (app2 (fun G L => 0.5 + 0.85 * G + 0.20 * L))
    else if formula = fSLUIJS89pol then .ok (app2 (fun G L => 12.0 + 0.96 * G + 0.17 * (L - G)))
    else if formula = fSLUIJS89sto then .ok (app2 (fun G L => 4.0 + 0.97 * G + 0.15 * (L - G)))
    else if formula = fGAAST06 then .ok (app2 (fun G L => 13.7 + 0.70 * G + 0.25 * L))
    else .error (eUnknownFormula formula)
  (warns, result)

/-- The concrete unknown formula name used to exercise the
unknown-formula path. -/
def sXXX : String := "XXX"

/-- C1: the source's groundwater-class chain evaluated at depths
GHG = 0.10, GLG = 1.00 (meters below surface).  The section 4.3a table
(row `GHG<0.25, 0.80<GLG<1.20`) classifies this as III, but the source
compares GLG against the literal `0.120` instead of `1.20` in the
conditions for III, III*, IV, V, V* and VI, so it returns V.  At the two
inputs the claim also quotes, the source and the table agree (class I, and
class VII* for GHG = 1.50). -/
theorem gt_C1_code_at_failing_input :
    gtClassify 0.10 1.00 = some cV ∧ gtSpecTable 0.10 1.00 = some cIII ∧
    gtClassify 0.15 0.40 = some cI ∧ gtClassify 1.50 1.00 = some cVIIst :=
  ⟨by with_unfolding_all decide, by with_unfolding_all decide,
   by with_unfolding_all decide, by with_unfolding_all decide⟩

/-- C2 (amended): with every one of the 8 formula names,
`gvg_approximate` emits no warning and returns exactly the literal
regression arithmetic of that formula applied to the cm-below-surface
inputs `surflevel*100 - mean*100`, rounded half to even to an integer; in
particular at GHG = 20 cm, GLG = 80 cm the formula SLUIJS82 yields
5.4 + 1.02*20 + 0.19*60 = 37.2, i.e. 37 cm rounded (not 57). -/
theorem gvg_C2_literal_arithmetic :
    ∀ (s a b : ℚ) (w l : Option ℚ),
      (gvgApproximate s (some a) (some b) w l (some fSLUIJS82) =
        ([], .ok (some (roundHE (5.4 + 1.02 * (s * 100 - a * 100) +
          0.19 * ((s * 100 - b * 100) - (s * 100 - a * 100))) : ℚ)))) ∧
      (gvgApproximate s (some a) (some b) w l (some fHEESEN74) =
        ([], .ok (some (roundHE (0.2 * ((s * 100 - b * 100) - (s * 100 - a * 100)) +
          (s * 100 - a * 100) + 12) : ℚ)))) ∧
      (gvgApproximate s (some a) (some b) w l (some fSLUIJS76a) =
        ([], .ok (some (roundHE (0.15 * ((s * 100 - b * 100) - (s * 100 - a * 100)) +
          1.01 * (s * 100 - a * 100) + 14.3) : ℚ)))) ∧
      (gvgApproximate s (some a) (some b) w l (some fSLUIJS76b) =
        ([], .ok (some (roundHE (1.03 * (s * 100 - a * 100) + 27.3) : ℚ)))) ∧
      (gvgApproximate s (some a) (some b) w l (some fSLUIJS89pol) =
        ([], .ok (some (roundHE (12.0 + 0.96 * (s * 100 - a * 100) +
          0.17 * ((s * 100 - b * 100) - (s * 100 - a * 100))) : ℚ)))) ∧
      (gvgApproximate s (some a) (some b) w l (some fSLUIJS89sto) =
        ([], .ok (some (roundHE (4.0 + 0.97 * (s * 100 - a * 100) +
          0.15 * ((s * 100 - b * 100) - (s * 100 - a * 100))) : ℚ)))) ∧
      (gvgApproximate s (some a) (some b) w l (some fRUNHAAR89) =
        ([], .ok (some (roundHE (0.5 + 0.85 * (s * 100 - a * 100) +
          0.20 * (s * 100 - b * 100)) : ℚ)))) ∧
      (gvgApproximate s (some a) (some b) w l (some fGAAST06) =
        ([], .ok (some (roundHE (13.7 + 0.70 * (s * 100 - a * 100) +
          0.25 * (s * 100 - b * 100)) : ℚ)))) ∧
      (gvgApproximate 1 (some 0.8) (some 0.2) none none (some fSLUIJS82)).2 =
        .ok (some 37) := by
  intro s a b w l
  refine ⟨?_, ?_, ?_, ?_, ?_, ?_, ?_, ?_, ?_⟩ <;> with_unfolding_all rfl

/-- C2, counterexample: at GHG = 20 cm, GLG = 80 cm (surface level 1 m,
mean HG3 = 0.80 m, mean LG3 = 0.20 m above datum) the formula SLUIJS82
returns 37 cm, not the 57 cm the claim asserts:
5.4 + 1.02*20 + 0.19*60 = 37.2. -/
theorem gvg_C2_counterexample :
    (gvgApproximate 1 (some 0.8) (some 0.2) none none (some fSLUIJS82)).2 =
      .ok (some 37) ∧ (37 : ℚ) ≠ 57 :=
  ⟨by with_unfolding_all rfl, by with_unfolding_all decide⟩

/-- C3: the SLUIJS89pol and SLUIJS89sto formulas do NOT read the
winter/summer means: the membership test of the source (line 518) checks
the misspelled names `SLUIS89pol`/`SLUIS89sto`, which never match, so both
formulas read the HG3/LG3 means.  With mean HG3 = 0.80 and mean LG3 = 0.20
(GHG = 20 cm, GLG = 80 cm) the result is 41 resp. 32 cm, unchanged when the
HG3W/LG3S means vary from (0.90, 0.10) to (0.50, 0.30); the claimed
HG3W/LG3S-based value at (0.90, 0.10) would be
12 + 0.96*10 + 0.17*80 = 35, which differs. -/
theorem gvg_C3_uses_hg3_lg3 :
    (gvgApproximate 1 (some 0.8) (some 0.2) (some 0.9) (some 0.1)
        (some fSLUIJS89pol)).2 = .ok (some 41) ∧
    (gvgApproximate 1 (some 0.8) (some 0.2) (some 0.5) (some 0.3)
        (some fSLUIJS89pol)).2 = .ok (some 41) ∧
    (gvgApproximate 1 (some 0.8) (some 0.2) (some 0.9) (some 0.1)
        (some fSLUIJS89sto)).2 = .ok (some 32) ∧
    (gvgApproximate 1 (some 0.8) (some 0.2) (some 0.5) (some 0.3)
        (some fSLUIJS89sto)).2 = .ok (some 32) ∧
    (41 : ℚ) ≠ 35 :=
  ⟨by with_unfolding_all rfl, by with_unfolding_all rfl,
   by with_unfolding_all rfl, by with_unfolding_all rfl,
   by with_unfolding_all decide⟩

/-- C4: with the unknown formula name `XXX`, `gvg_approximate` emits the
warning announcing that SLUIJS82 is assumed, but then raises (the final
`else` of the formula chain) instead of computing SLUIJS82: the fallback
that both the claim and the source's own warning text promise never
happens. -/
theorem gvg_C4_unknown_formula_raises :
    gvgApproximate 1 (some 0.8) (some 0.2) none none (some sXXX) =
      ([wUnknownFormula sXXX], .error (eUnknownFormula sXXX)) := by
  with_unfolding_all rfl

/-! ## Dates and the per-year table (`GxgStats.xg`, lines 112-291) -/

/-- A calendar date. -/
structure GwDate where
  y : ℤ
  m : ℤ
  d : ℤ
deriving DecidableEq, Repr

/-- Modelled from the spec: the hydrological-year labeling function
(`aq.hydroyear`, an external collaborator not under src/): a date from
April 1 of year Y up to March 31 of year Y+1 belongs to hydrological
year Y. -/
def hydroyear (t : GwDate) : ℤ := if 4 ≤ t.m then t.y else t.y - 1

/-- Modelled from the spec: the season classifier (`aq.season`, an external
collaborator not under src/): October-March is winter, April-September is
summer. -/
def isWinter (t : GwDate) : Bool := decide (t.m ≤ 3) || decide (10 ≤ t.m)

/-- Proleptic-Gregorian day number of a date (days since 1970-01-01),
the civil-from-days algorithm; all intermediate divisions have nonnegative
operands for the years that occur here. -/
def dayNumber (t : GwDate) : ℤ :=
  let y := if t.m ≤ 2 then t.y - 1 else t.y
  let era := (if 0 ≤ y then y else y - 399) / 400
  let yoe := y - era * 400
  let mp := (t.m + 9) % 12
  let doy := (153 * mp + 2) / 5 + t.d - 1
  let doe := yoe * 365 + yoe / 4 - yoe / 100 + doy
  era * 146097 + doe - 719468

/-- Day distance used by `vg1`: absolute difference of day numbers. -/
def dayDist (ref t : GwDate) : ℕ := (dayNumber t - dayNumber ref).natAbs

/-- Source `numpy.amin`: the minimum of a list, `none` when the list is empty
(where the source would raise). -/
def amin {α : Type} [Min α] : List α → Option α
  | [] => none
  | x :: xs => match amin xs with
    | none => some x
    | some m => some (Min.min x m)

/-- Maximum of a list, `none` when empty. -/
def amax {α : Type} [Max α] : List α → Option α
  | [] => none
  | x :: xs => match amax xs with
    | none => some x
    | some m => some (Max.max x m)

/-- Insertion into a descending-sorted list. -/
def insertDescend (x : ℚ) : List ℚ → List ℚ
  | [] => [x]
  | y :: ys => if y < x then x :: y :: ys else y :: insertDescend x ys

/-- Descending sort (the order among equal values does not matter: only
the multiset of the first three values is used). -/
def sortDescend (l : List ℚ) : List ℚ := l.foldr insertDescend []

/-- Insertion into an ascending-sorted list. -/
def insertAscend (x : ℚ) : List ℚ → List ℚ
  | [] => [x]
  | y :: ys => if x < y then x :: y :: ys else y :: insertAscend x ys

/-- Ascending sort. -/
def sortAscend (l : List ℚ) : List ℚ := l.foldr insertAscend []

/-- Source `ts.nlargest(n=3).mean()`: the mean of the (up to) 3 largest values. -/
def top3mean (l : List ℚ) : ℚ := qmean ((sortDescend l).take 3)

/-- Source `ts.nsmallest(n=3).mean()`: the mean of the (up to) 3 smallest
values. -/
def bot3mean (l : List ℚ) : ℚ := qmean ((sortAscend l).take 3)

/-- The valid (non-missing) observations of hydrological year `y` in the
normalized series: `ts = self._ts1428[hydroyears==year]; ts = ts[ts.notnull()]`. -/
def validPairs (ts : List (GwDate × Option ℚ)) (y : ℤ) : List (GwDate × ℚ) :=
  (ts.filter (fun p => decide (hydroyear p.1 = y))).filterMap
    (fun p => p.2.map (fun v => (p.1, v)))

/-- The contiguous integer range `[a..b]`. -/
def intRange (a b : ℤ) : List ℤ :=
  (List.range (b + 1 - a).toNat).map (fun i => a + (Nat.cast i : ℤ))

/-- Positional lookup `self._ts1428[date]`: the (possibly missing) value
stored at a date of the canonical index, and the KeyError the source
raises for a date outside it. -/
def lookup1428E (ts : List (GwDate × Option ℚ)) (t : GwDate) :
    Except String (Option ℚ) :=
  match ts.find? (fun p => decide (p.1 = t)) with
  | some p => Except.ok p.2
  | none => Except.error eKeyError

/-- Source `GxgStats.vg3` for one year (lines 159-167): the canonical slots
of 14 March, 28 March and 14 April are looked up positionally in that
order (a slot outside the canonical span raises, aborting the
computation), then `round(np.nanmean([v1, v2, v3]), 2)`. -/
def vg3YearE (ts : List (GwDate × Option ℚ)) (y : ℤ) :
    Except String (Option ℚ) := do
  let v1 ← lookup1428E ts ⟨y, 3, 14⟩
  let v2 ← lookup1428E ts ⟨y, 3, 28⟩
  let v3 ← lookup1428E ts ⟨y, 4, 14⟩
  return (nanmean [v1, v2, v3]).map round2

/-- Source `GxgStats.vg1` for one year (lines 226-232): the minimum absolute day
distance from the reference date over the raw series; if it is within
`maxlag`, the first (chronologically earliest) observation attaining it is
taken and rounded; the empty raw series, on which the source's `np.amin`
would raise, yields missing. -/
def vg1Lookup (raw : List (GwDate × ℚ)) (ref : GwDate) (maxlag : ℤ) :
    Option ℚ :=
  match amin (raw.map (fun p => dayDist ref p.1)) with
  | none => none
  | some m =>
    if (m : ℤ) ≤ maxlag then
      ((raw.filter (fun p => decide (dayDist ref p.1 = m))).head?).map
        (fun p => round2 p.2)
    else none

/-- One row of the per-year table. -/
structure YearRecord where
  hg3 : Option ℚ
  lg3 : Option ℚ
  hg3w : Option ℚ
  lg3s : Option ℚ
  vg3 : Option ℚ
  vgApr1 : Option ℚ
  vgApr15 : Option ℚ
  vgMar15 : Option ℚ
  n1428 : ℕ
deriving DecidableEq, Repr

/-- Smallest calendar year of the normalized index (`_yearseries` lower
bound for the `vg3`/`vg1` series). -/
def calMin (ts : List (GwDate × Option ℚ)) : ℤ :=
  (amin (ts.map (fun p => p.1.y))).getD 0

/-- Largest calendar year of the normalized index. -/
def calMax (ts : List (GwDate × Option ℚ)) : ℤ :=
  (amax (ts.map (fun p => p.1.y))).getD 0

/-- Source `GxgStats.vg3` as a series (lines 156-170): one value per
calendar year of the normalized index, from the smallest to the largest
(`_yearseries`); the first KeyError aborts the whole series and with it
`xg()`, so no table at all is produced. -/
def vg3Series (ts : List (GwDate × Option ℚ)) :
    Except String (List (ℤ × Option ℚ)) :=
  (intRange (calMin ts) (calMax ts)).mapM
    (fun y => (vg3YearE ts y).map (fun v => (y, v)))

/-- Source pandas index alignment: assigning a year-indexed series as a
table column gives a year absent from the series index a missing value
(this is alignment, not an error). -/
def alignYear (ser : List (ℤ × Option ℚ)) (y : ℤ) : Option ℚ :=
  match ser.find? (fun p => decide (p.1 = y)) with
  | some p => p.2
  | none => none

/-- One row of `GxgStats.xg` (lines 253-287), given the aligned value of
the `vg3` series at this hydro year.  The `vg_*` series are likewise
indexed by the calendar years of the normalized index and aligned onto the
hydro-year index by pandas, so a hydro year outside the calendar-year
range receives missing there. -/
def xgRow (ts : List (GwDate × Option ℚ)) (raw : List (GwDate × ℚ))
    (y : ℤ) (vg3cell : Option ℚ) : YearRecord :=
  let pairs := validPairs ts y
  let vals := pairs.map Prod.snd
  let n := vals.length
  let wvals := (pairs.filter (fun p => isWinter p.1)).map Prod.snd
  let svals := (pairs.filter (fun p => ! isWinter p.1)).map Prod.snd
  let inCal : Bool := decide (calMin ts ≤ y) && decide (y ≤ calMax ts)
  { hg3 := if 18 ≤ n then some (round2 (top3mean vals)) else none
    lg3 := if 18 ≤ n then some (round2 (bot3mean vals)) else none
    hg3w := if 18 ≤ n then
        (if wvals.isEmpty then none else some (round2 (top3mean wvals)))
      else none
    lg3s := if 18 ≤ n then
        (if svals.isEmpty then none else some (round2 (bot3mean svals)))
      else none
    vg3 := vg3cell
    vgApr1 := if inCal then vg1Lookup raw ⟨y, 4, 1⟩ 7 else none
    vgApr15 := if inCal then vg1Lookup raw ⟨y, 4, 15⟩ 7 else none
    vgMar15 := if inCal then vg1Lookup raw ⟨y, 3, 15⟩ 7 else none
    n1428 := n }

/-- Smallest hydrological year of the normalized index. -/
def minHydro (ts : List (GwDate × Option ℚ)) : ℤ :=
  (amin (ts.map (fun p => hydroyear p.1))).getD 0

/-- Largest hydrological year of the normalized index. -/
def maxHydro (ts : List (GwDate × Option ℚ)) : ℤ :=
  (amax (ts.map (fun p => hydroyear p.1))).getD 0

/-- The per-year table of `GxgStats.xg`: the `vg3` series is computed
first over every calendar year of the index (its KeyError aborts `xg()`
with no table), then one `YearRecord` per hydrological year of the
contiguous `_yearseries` index from the smallest to the largest hydro
year, no gaps, with the `vg3` values aligned by year.  The source raises
already on an empty series when taking the year bounds; the empty case is
given the empty table. -/
def xgTableE (ts : List (GwDate × Option ℚ)) (raw : List (GwDate × ℚ)) :
    Except String (List (ℤ × YearRecord)) :=
  if ts.isEmpty then Except.ok []
  else (vg3Series ts).map (fun ser =>
    (intRange (minHydro ts) (maxHydro ts)).map
      (fun y => (y, xgRow ts raw y (alignYear ser y))))

/-- The row of a computed table at a given year: present only when the
table computation succeeded and the year has a row. -/
def tableRow (t : Except String (List (ℤ × YearRecord))) (y : ℤ) :
    Option YearRecord :=
  match t with
  | Except.ok tbl => (tbl.find? (fun p => decide (p.1 = y))).map Prod.snd
  | Except.error _ => none

example : dayNumber ⟨1970, 1, 1⟩ = 0 := by with_unfolding_all decide
example : dayNumber ⟨2000, 3, 1⟩ = 11017 := by with_unfolding_all decide
example : dayNumber ⟨2000, 4, 1⟩ - dayNumber ⟨2000, 3, 29⟩ = 3 := by
  with_unfolding_all decide

/-! ## Lemmas about `amin` and `intRange` -/

lemma amin_eq_none {α : Type} [Min α] {l : List α} :
    amin l = none ↔ l = [] := by
  cases l with
  | nil => simp [amin]
  | cons x xs => cases h : amin xs <;> simp [amin, h]

lemma amin_cons_none {α : Type} [Min α] {x : α} {xs : List α}
    (h : amin xs = none) : amin (x :: xs) = some x := by
  simp [amin, h]

lemma amin_cons_some {α : Type} [Min α] {x k : α} {xs : List α}
    (h : amin xs = some k) : amin (x :: xs) = some (Min.min x k) := by
  simp [amin, h]

lemma amin_mem {α : Type} [LinearOrder α] {l : List α} {m : α}
    (h : amin l = some m) : m ∈ l := by
  induction l generalizing m with
  | nil => simp [amin] at h
  | cons x xs ih =>
    cases hx : amin xs with
    | none =>
      rw [amin_cons_none hx] at h
      obtain rfl : x = m := Option.some.inj h
      exact List.mem_cons_self x xs
    | some k =>
      rw [amin_cons_some hx] at h
      obtain rfl : Min.min x k = m := Option.some.inj h
      rcases le_total x k with hle | hle
      · rw [min_eq_left hle]
        exact List.mem_cons_self x xs
      · rw [min_eq_right hle]
        exact List.mem_cons_of_mem x (ih hx)

lemma amin_le {α : Type} [LinearOrder α] {l : List α} {m : α}
    (h : amin l = some m) : ∀ a ∈ l, m ≤ a := by
  induction l generalizing m with
  | nil => simp [amin] at h
  | cons x xs ih =>
    intro a ha
    cases hx : amin xs with
    | none =>
      rw [amin_cons_none hx] at h
      obtain rfl : x = m := Option.some.inj h
      rw [amin_eq_none] at hx
      subst hx
      rcases List.mem_singleton.mp ha with rfl
      exact le_rfl
    | some k =>
      rw [amin_cons_some hx] at h
      obtain rfl : Min.min x k = m := Option.some.inj h
      rcases List.mem_cons.mp ha with rfl | ha'
      · exact min_le_left _ _
      · exact le_trans (min_le_right x k) (ih hx a ha')

lemma amin_spec {α : Type} [LinearOrder α] {l : List α} {m : α}
    (hm : m ∈ l) (hle : ∀ a ∈ l, m ≤ a) : amin l = some m := by
  cases hk : amin l with
  | none =>
    rw [amin_eq_none] at hk
    subst hk
    simp at hm
  | some k =>
    have h1 : k ≤ m := amin_le hk m hm
    have h2 : m ≤ k := hle k (amin_mem hk)
    rw [le_antisymm h1 h2]

lemma intRange_mem (a b y : ℤ) : y ∈ intRange a b ↔ a ≤ y ∧ y ≤ b := by
  simp only [intRange, List.mem_map, List.mem_range]
  constructor
  · rintro ⟨i, hi, rfl⟩
    omega
  · rintro ⟨h1, h2⟩
    exact ⟨(y - a).toNat, by omega, by omega⟩

lemma intRange_nodup (a b : ℤ) : (intRange a b).Nodup := by
  unfold intRange
  refine List.Nodup.map ?_ (List.nodup_range _)
  intro i j hij
  have h2 : (Nat.cast i : ℤ) = Nat.cast j := add_left_cancel hij
  exact Nat.cast_inj.mp h2

/-! ## Claims C5, C6 and C10 -/

lemma filter_head_first (ref : GwDate) (m : ℕ) :
    ∀ (l : List (GwDate × ℚ)) (d : GwDate) (v : ℚ),
      l.Pairwise (fun p q => dayNumber p.1 < dayNumber q.1) →
      (d, v) ∈ l →
      dayDist ref d = m →
      (∀ p ∈ l, dayDist ref p.1 = m → dayNumber d ≤ dayNumber p.1) →
      (l.filter (fun p => decide (dayDist ref p.1 = m))).head? =
        some (d, v) := by
  intro l
  induction l with
  | nil =>
    intro d v _ hmem _ _
    simp at hmem
  | cons p ps ih =>
    intro d v hpw hmem hd hfirst
    rcases List.pairwise_cons.mp hpw with ⟨hall, hpw'⟩
    by_cases hp : dayDist ref p.1 = m
    · have hdp : (d, v) = p := by
        rcases List.mem_cons.mp hmem with h | h
        · exact h
        · exfalso
          have h1 : dayNumber p.1 < dayNumber d := hall (d, v) h
          have h2 : dayNumber d ≤ dayNumber p.1 :=
            hfirst p (List.mem_cons_self p ps) hp
          omega
      rw [← hdp] at hp ⊢
      simp [List.filter_cons, hp]
    · have hmem' : (d, v) ∈ ps := by
        rcases List.mem_cons.mp hmem with h | h
        · exfalso
          apply hp
          rw [← h]
          exact hd
        · exact h
      have hres := ih d v hpw' hmem' hd
        (fun q hq hqd => hfirst q (List.mem_cons_of_mem _ hq) hqd)
      simpa [List.filter_cons, hp] using hres

/-- C10: whenever the raw series is chronologically sorted and the
observation `(d, v)` attains the minimal absolute day distance from the
reference date, is the earliest-dated observation attaining it, and lies
within the maximum lag, the `vg1` lookup returns its (rounded) value: in
particular, among two or more observations tied at the minimal distance the
earliest-dated one is selected. -/
theorem vg1_C10_earliest_tie (raw : List (GwDate × ℚ)) (ref : GwDate)
    (maxlag : ℤ) (d : GwDate) (v : ℚ)
    (hsort : raw.Pairwise (fun p q => dayNumber p.1 < dayNumber q.1))
    (hmem : (d, v) ∈ raw)
    (hmin : ∀ p ∈ raw, dayDist ref d ≤ dayDist ref p.1)
    (hfirst : ∀ p ∈ raw, dayDist ref p.1 = dayDist ref d →
      dayNumber d ≤ dayNumber p.1)
    (hlag : (dayDist ref d : ℤ) ≤ maxlag) :
    vg1Lookup raw ref maxlag = some (round2 v) := by
  have hmin' : amin (raw.map (fun p => dayDist ref p.1)) =
      some (dayDist ref d) := by
    apply amin_spec
    · exact List.mem_map.mpr ⟨(d, v), hmem, rfl⟩
    · intro a ha
      rcases List.mem_map.mp ha with ⟨p, hp, rfl⟩
      exact hmin p hp
  simp only [vg1Lookup, hmin']
  rw [if_pos hlag]
  rw [filter_head_first ref (dayDist ref d) raw d v hsort hmem rfl hfirst]
  rfl

/-- Raw series with two observations tied at 3 days around 2000-04-01. -/
def rawTie : List (GwDate × ℚ) := [(⟨2000, 3, 29⟩, 2), (⟨2000, 4, 4⟩, 5)]

set_option maxRecDepth 8000 in
/-- C10, witness: with observations on 2000-03-29 (value 2) and 2000-04-04
(value 5), both 3 days from the reference date 2000-04-01 and within the
7-day lag, the earlier observation is selected. -/
theorem vg1_C10_witness :
    vg1Lookup rawTie ⟨2000, 4, 1⟩ 7 = some (round2 2) :=
  vg1_C10_earliest_tie rawTie ⟨2000, 4, 1⟩ 7 ⟨2000, 3, 29⟩ 2
    (by with_unfolding_all decide) (by with_unfolding_all decide)
    (by with_unfolding_all decide) (by with_unfolding_all decide)
    (by with_unfolding_all decide)

/-- C5: the extremum statistics of a year row are gated by the threshold
`N14 = 18` on the count of valid canonical observations: HG3 and LG3 are
present exactly when the count is at least 18, in which case they are the
rounded means of the 3 largest resp. 3 smallest values; below 18 the
season-restricted HG3W and LG3S are missing as well, and at or above 18
they are present exactly when their season subset is nonempty. -/
theorem xg_C5_n14_gate (ts : List (GwDate × Option ℚ))
    (raw : List (GwDate × ℚ)) (y : ℤ) (vgc : Option ℚ) :
    ((xgRow ts raw y vgc).hg3 ≠ none ↔ 18 ≤ (validPairs ts y).length) ∧
    ((xgRow ts raw y vgc).lg3 ≠ none ↔ 18 ≤ (validPairs ts y).length) ∧
    (18 ≤ (validPairs ts y).length →
      (xgRow ts raw y vgc).hg3 =
        some (round2 (top3mean ((validPairs ts y).map Prod.snd))) ∧
      (xgRow ts raw y vgc).lg3 =
        some (round2 (bot3mean ((validPairs ts y).map Prod.snd)))) ∧
    ((validPairs ts y).length < 18 →
      (xgRow ts raw y vgc).hg3w = none ∧ (xgRow ts raw y vgc).lg3s = none) ∧
    (18 ≤ (validPairs ts y).length →
      ((xgRow ts raw y vgc).hg3w ≠ none ↔
        (validPairs ts y).filter (fun p => isWinter p.1) ≠ []) ∧
      ((xgRow ts raw y vgc).lg3s ≠ none ↔
        (validPairs ts y).filter (fun p => ! isWinter p.1) ≠ [])) := by
  by_cases h18 : 18 ≤ (validPairs ts y).length
  · refine ⟨by simp [xgRow, h18], by simp [xgRow, h18],
      fun _ => ⟨by simp [xgRow, h18], by simp [xgRow, h18]⟩,
      fun hlt => absurd h18 (by omega), fun _ => ⟨?_, ?_⟩⟩
    · by_cases hw : (validPairs ts y).filter (fun p => isWinter p.1) = [] <;>
        simp [xgRow, h18, hw, List.isEmpty_iff, List.map_eq_nil_iff]
    · by_cases hs : (validPairs ts y).filter (fun p => ! isWinter p.1) = [] <;>
        simp [xgRow, h18, hs, List.isEmpty_iff, List.map_eq_nil_iff]
  · refine ⟨by simp [xgRow, h18], by simp [xgRow, h18],
      fun h => absurd h h18, fun _ => ⟨by simp [xgRow, h18], by simp [xgRow, h18]⟩,
      fun h => absurd h h18⟩

/-- The normalized series used as the C5 witness: one full summer-and-autumn
of 18 valid canonical observations in hydrological year 2005. -/
def ts5 : List (GwDate × Option ℚ) :=
  [(⟨2005, 4, 14⟩, some 1), (⟨2005, 4, 28⟩, some 2),
   (⟨2005, 5, 14⟩, some 3), (⟨2005, 5, 28⟩, some 4),
   (⟨2005, 6, 14⟩, some 5), (⟨2005, 6, 28⟩, some 6),
   (⟨2005, 7, 14⟩, some 7), (⟨2005, 7, 28⟩, some 8),
   (⟨2005, 8, 14⟩, some 9), (⟨2005, 8, 28⟩, some 10),
   (⟨2005, 9, 14⟩, some 11), (⟨2005, 9, 28⟩, some 12),
   (⟨2005, 10, 14⟩, some 13), (⟨2005, 10, 28⟩, some 14),
   (⟨2005, 11, 14⟩, some 15), (⟨2005, 11, 28⟩, some 16),
   (⟨2005, 12, 14⟩, some 17), (⟨2005, 12, 28⟩, some 18)]

set_option maxRecDepth 8000 in
/-- C5, witness: the witness series has exactly 18 valid observations in
hydrological year 2005, so its HG3 is present and is the rounded mean of
the 3 largest values. -/
theorem xg_C5_witness :
    18 ≤ (validPairs ts5 2005).length ∧
    (xgRow ts5 [] 2005 none).hg3 =
      some (round2 (top3mean ((validPairs ts5 2005).map Prod.snd))) :=
  ⟨by with_unfolding_all decide,
   ((xg_C5_n14_gate ts5 [] 2005 none).2.2.1 (by with_unfolding_all decide)).1⟩

/-- C6 (amended): when the yearly extractor succeeds on a nonempty
normalized series (its spring-level calendar-date lookups raise for a
series whose canonical span lacks a boundary year's 14/28 March or
14 April slot, and then no table at all is produced), the per-year table
has exactly one row for every hydrological year from the minimum to the
maximum year present, with no gaps and no omissions; a year with zero
valid observations keeps its row, with missing extremum statistics and a
zero observation count (its spring-level fields can still be non-missing,
see the counterexample). -/
theorem xg_C6_contiguous_years (ts : List (GwDate × Option ℚ))
    (raw : List (GwDate × ℚ)) (tbl : List (ℤ × YearRecord)) (h : ts ≠ [])
    (hok : xgTableE ts raw = Except.ok tbl) :
    (tbl.map Prod.fst).Nodup ∧
    (∀ y : ℤ, y ∈ tbl.map Prod.fst ↔
      minHydro ts ≤ y ∧ y ≤ maxHydro ts) ∧
    (∀ y r, (y, r) ∈ tbl → validPairs ts y = [] →
      r.hg3 = none ∧ r.lg3 = none ∧ r.hg3w = none ∧ r.lg3s = none ∧
        r.n1428 = 0) := by
  have hne : ts.isEmpty = false := by
    cases ts with
    | nil => exact absurd rfl h
    | cons a l => rfl
  rw [xgTableE, if_neg (by simp [hne])] at hok
  cases hser : vg3Series ts with
  | error e =>
    rw [hser] at hok
    exact absurd hok (by simp [Except.map])
  | ok ser =>
    rw [hser] at hok
    simp only [Except.map] at hok
    have htbl : tbl = (intRange (minHydro ts) (maxHydro ts)).map
        (fun y => (y, xgRow ts raw y (alignYear ser y))) := by
      injection hok with h1
      exact h1.symm
    subst htbl
    have hmapfst : ((intRange (minHydro ts) (maxHydro ts)).map
        (fun y => (y, xgRow ts raw y (alignYear ser y)))).map Prod.fst =
        intRange (minHydro ts) (maxHydro ts) := by
      rw [List.map_map]
      exact List.map_id _
    refine ⟨?_, ?_, ?_⟩
    · rw [hmapfst]
      exact intRange_nodup _ _
    · intro y
      rw [hmapfst]
      exact intRange_mem _ _ y
    · intro y r hmem h0
      have hmem' : ∃ a ∈ intRange (minHydro ts) (maxHydro ts),
          a = y ∧ xgRow ts raw a (alignYear ser a) = r := by
        simpa using hmem
      obtain ⟨a, _, rfl, rfl⟩ := hmem'
      refine ⟨?_, ?_, ?_, ?_, ?_⟩ <;> simp [xgRow, h0]

/-- The single-observation normalized series (one valid value on
14 May 2001): its canonical span contains neither 14 March nor any April
slot of 2001, so the spring-level lookup of the real extractor raises and
no table is produced. -/
def tsCrash : List (GwDate × Option ℚ) := [(⟨2001, 5, 14⟩, some 1)]

/-- A three-slot normalized series spanning 14 March to 14 April 2001, on
which the extractor succeeds. -/
def tsOk : List (GwDate × Option ℚ) :=
  [(⟨2001, 3, 14⟩, some 1), (⟨2001, 3, 28⟩, none), (⟨2001, 4, 14⟩, some 1)]

/-- The table the extractor computes on `tsOk`. -/
def tblOk : List (ℤ × YearRecord) := ((xgTableE tsOk []).toOption).getD []

set_option maxRecDepth 8000 in
/-- C6, witness: the extractor succeeds on the witness series, which is
nonempty, and the year index of its table has no duplicate rows. -/
theorem xg_C6_witness :
    tsOk ≠ [] ∧ (tblOk.map Prod.fst).Nodup :=
  ⟨by with_unfolding_all decide,
   (xg_C6_contiguous_years tsOk [] tblOk (by with_unfolding_all decide)
     (by with_unfolding_all rfl)).1⟩

/-- Normalized series whose hydrological year 2000 has zero valid
observations: valid values sit on the canonical slots of 14/28 March 2000
(hydro year 1999) and 14 April 2001 (hydro year 2001) only. -/
def T6 : List (GwDate × Option ℚ) :=
  [(⟨2000, 3, 14⟩, some 1), (⟨2000, 3, 28⟩, some 1),
   (⟨2000, 4, 14⟩, none), (⟨2000, 4, 28⟩, none),
   (⟨2000, 5, 14⟩, none), (⟨2000, 5, 28⟩, none),
   (⟨2000, 6, 14⟩, none), (⟨2000, 6, 28⟩, none),
   (⟨2000, 7, 14⟩, none), (⟨2000, 7, 28⟩, none),
   (⟨2000, 8, 14⟩, none), (⟨2000, 8, 28⟩, none),
   (⟨2000, 9, 14⟩, none), (⟨2000, 9, 28⟩, none),
   (⟨2000, 10, 14⟩, none), (⟨2000, 10, 28⟩, none),
   (⟨2000, 11, 14⟩, none), (⟨2000, 11, 28⟩, none),
   (⟨2000, 12, 14⟩, none), (⟨2000, 12, 28⟩, none),
   (⟨2001, 1, 14⟩, none), (⟨2001, 1, 28⟩, none),
   (⟨2001, 2, 14⟩, none), (⟨2001, 2, 28⟩, none),
   (⟨2001, 3, 14⟩, none), (⟨2001, 3, 28⟩, none),
   (⟨2001, 4, 14⟩, some 1)]

/-- The raw series behind `T6`. -/
def R6 : List (GwDate × ℚ) :=
  [(⟨2000, 3, 14⟩, 1), (⟨2000, 3, 28⟩, 1), (⟨2001, 4, 14⟩, 1)]

set_option maxRecDepth 8000 in
/-- C6, counterexample: hydrological year 2000 of `T6` has zero valid
canonical observations, yet the extractor succeeds on `T6` and the row it
produces for year 2000 carries a non-missing spring level VG3 = 1.00:
`vg3` looks up 14/28 March by calendar date, which belongs to the
preceding hydrological year, so the row's fields are not all missing as
the claim states.  Moreover the claim's "for every non-empty normalized
series" fails independently: on `tsCrash` the spring-level lookup raises
a KeyError and no table is produced at all. -/
theorem xg_C6_counterexample :
    validPairs T6 2000 = [] ∧
    (tableRow (xgTableE T6 R6) 2000).map YearRecord.vg3 = some (some 1) ∧
    xgTableE tsCrash [] = Except.error eKeyError := by
  refine ⟨?_, ?_, ?_⟩
  · with_unfolding_all decide
  · with_unfolding_all decide
  · with_unfolding_all rfl

/-! ## The summary record (`GxgStats.gxg`, lines 294-417) -/

def sStdSfx : String := "_std"

def sSeSfx : String := "_se"

def sNyrsSfx : String := "_nyrs"

def sGvgPrefix : String := "gvg_"

/-- The non-missing values of a column. -/
def colValid (col : List (Option ℚ)) : List ℚ := col.filterMap id

/-- Largest `j ≥ k` with `j*j ≤ n`, reached by climbing from `k` with the
given fuel; structural recursion so that it evaluates inside the kernel. -/
def isqrtFrom (n : ℕ) : ℕ → ℕ → ℕ
  | k, 0 => k
  | k, fuel+1 => if (k+1)*(k+1) ≤ n then isqrtFrom n (k+1) fuel else k

/-- Integer square root: the largest `k` with `k*k ≤ n` (fuel `n` always
suffices since the root is at most `n`). -/
def isqrt (n : ℕ) : ℕ := isqrtFrom n 0 n

/-- Floor of the real square root of a nonnegative rational, computed with
integer arithmetic: the floor of sqrt(p/q) is the floor of sqrt(p*q)/q. -/
def floorSqrtQ (w : ℚ) : ℕ := isqrt (w.num.toNat * w.den) / w.den

/-- Round half to even of the real square root of a nonnegative rational,
computed exactly: with n the floor of the root, the tie test compares 4w
against (2n+1) squared.  Models `numpy.round` applied to a square root. -/
def roundSqrtHE (w : ℚ) : ℤ :=
  let n := floorSqrtQ w
  if 4 * w < (2 * (n : ℚ) + 1)^2 then (n : ℤ)
  else if (2 * (n : ℚ) + 1)^2 < 4 * w then (n : ℤ) + 1
  else if n % 2 = 0 then (n : ℤ) else (n : ℤ) + 1

/-- Sample variance with ddof = 1, the default of `pandas.Series.std`. -/
def sampleVar (xs : List ℚ) : ℚ :=
  ((xs.map (fun v => (v - qmean xs)^2)).sum) / ((xs.length : ℚ) - 1)

/-- Source `np.round(self._xg[col].std(skipna=True), 2)` at reference level datum:
round half to even at 2 decimals of the square root of the sample variance
of the valid values (`round2 (sqrt v) = roundSqrtHE (10000*v) / 100`);
missing when fewer than 2 valid values (pandas yields NaN there). -/
def colStdDatum (col : List (Option ℚ)) : Option ℚ :=
  let vs := colValid col
  if vs.length ≤ 1 then none
  else some ((roundSqrtHE (10000 * sampleVar vs) : ℚ) / 100)

/-- Source `np.round((self._xg[col]*100).std(skipna=True))` at reference level
surface: the column is scaled by 100 first, the result rounded to an
integer. -/
def colStdSurface (col : List (Option ℚ)) : Option ℚ :=
  let vs := colValid (col.map (Option.map (fun v => v * 100)))
  if vs.length ≤ 1 then none
  else some ((roundSqrtHE (sampleVar vs) : ℚ))

/-- Source `np.round(sr.std(skipna=True)/np.sqrt(sr.count()), 2)` at datum:
since `sqrt v / sqrt n = sqrt (v/n)`, this is the 2-decimal half-even
rounding of `sqrt (v/n)`. -/
def colSeDatum (col : List (Option ℚ)) : Option ℚ :=
  let vs := colValid col
  if vs.length ≤ 1 then none
  else some ((roundSqrtHE (10000 * (sampleVar vs / vs.length)) : ℚ) / 100)

/-- The standard error at reference level surface: scaled column, rounded
to an integer. -/
def colSeSurface (col : List (Option ℚ)) : Option ℚ :=
  let vs := colValid (col.map (Option.map (fun v => v * 100)))
  if vs.length ≤ 1 then none
  else some ((roundSqrtHE (sampleVar vs / vs.length) : ℚ))

/-- Source `np.round(sr.count())`: the number of contributing (non-missing)
years of a column. -/
def colNyrs (col : List (Option ℚ)) : ℕ := (colValid col).length

/-- A value of the summary record: numeric or text, possibly missing. -/
inductive Cell where
  | num : Option ℚ → Cell
  | txt : Option String → Cell
deriving DecidableEq, Repr

/-- Source `pandas.Series.__setitem__` on a string-keyed series: replace the
value at an existing key in place, else append the key. -/
def upsert (l : List (String × Cell)) (k : String) (v : Cell) :
    List (String × Cell) :=
  match l with
  | [] => [(k, v)]
  | (k', v') :: rest =>
    if k' = k then (k, v) :: rest else (k', v') :: upsert rest k v

/-- The body of the mean loop (lines 332-346) for one numeric column.
Python's builtin `round` raises ValueError on NaN when called without a
decimals argument, so the surface branch `round(sr.mean()*100)` raises on
an all-missing column, while the datum branch `round(sr.mean(), 2)` keeps
the missing value; the outer `none` means no assignment (reference level
matching neither branch).  The `n1428` special case runs after the
branches and overwrites them with the rounded unscaled mean.  Its own NaN
path at datum level (line 346 on an all-missing count column) is kept as a
stored missing value: the `n1428` column of every table the extractor
produces carries a year count and is never missing, so that path is
unreachable from the pipeline. -/
def meanCell (reflev name : String) (col : List (Option ℚ)) :
    Except String (Option (Option ℚ)) :=
  let n1428val : Option (Option ℚ) :=
    some ((nanmean col).map (fun m => (roundHE m : ℚ)))
  if reflev = sDatum then
    Except.ok (if name = sN1428 then n1428val
      else some ((nanmean col).map round2))
  else if reflev = sSurface then
    match nanmean col with
    | some m => Except.ok (if name = sN1428 then n1428val
        else some (some ((roundHE (m * 100) : ℚ))))
    | none => Except.error eRoundNaN
  else
    Except.ok (if name = sN1428 then n1428val else none)

/-- One step of the mean loop: perform the assignment `meanCell` decides
on, or propagate its error. -/
def meanStep (reflev : String) (acc : List (String × Cell))
    (nc : String × List (Option ℚ)) : Except String (List (String × Cell)) :=
  (meanCell reflev nc.1 nc.2).map (fun r =>
    match r with
    | some v => upsert acc nc.1 (Cell.num v)
    | none => acc)

/-- The mean loop over all columns followed by the measurement-frequency
reduction: the `measfrq` column, last in column order, is reduced by the
external dominant-frequency reducer `maxfrq` instead of being averaged;
an error of any column aborts the summary. -/
def meanStage (maxfrq : List String → String) (reflev : String)
    (cols : List (String × List (Option ℚ))) (frq : List String) :
    Except String (List (String × Cell)) :=
  (cols.foldlM (meanStep reflev) []).map
    (fun s0 => upsert s0 sMeasfrq (Cell.txt (some (maxfrq frq))))

/-- The body of the standard-deviation loop (lines 359-374) for one
column: skip `n1428` and `measfrq`, otherwise datum/surface branches, and
any other reference level raises. -/
def stdStep (reflev : String) (acc : List (String × Cell))
    (nc : String × List (Option ℚ)) : Except String (List (String × Cell)) :=
  if nc.1 = sN1428 ∨ nc.1 = sMeasfrq then Except.ok acc
  else if reflev = sDatum then
    Except.ok (upsert acc (nc.1 ++ sStdSfx) (Cell.num (colStdDatum nc.2)))
  else if reflev = sSurface then
    Except.ok (upsert acc (nc.1 ++ sStdSfx) (Cell.num (colStdSurface nc.2)))
  else Except.error eInvalidReflev

/-- The index renaming of lines 407-410: substring replacement, applied to
every row name, in the fixed order hg3, lg3, vg, measfrq. -/
def renameKey (s : String) : String :=
  (((s.replace sHg3 sGhg).replace sLg3 sGlg).replace sVg sGvg).replace
    sMeasfrq sMaxfrq

/-- Source `GxgStats.gxg` (lines 294-417): the summary record as an ordered
key-cell list.  Inputs: the external dominant-frequency reducer, the
surface level, the numeric columns of the per-year table in order (ending
with `n1428`), the measurement-frequency column, and the reference-level
argument.  Returns the emitted warnings and either the record or the
raised error. -/
def gxgSummary (maxfrq : List String → String) (surflevel : ℚ)
    (cols : List (String × List (Option ℚ))) (frq : List String)
    (reflevArg : Option String) :
    List String × Except String (List (String × Cell)) :=
  let warns : List String :=
    match reflevArg with
    | none => [wReflevNone]
    | some _ => []
  let reflev : String :=
    match reflevArg with
    | none => sDatum
    | some r => r
  let getCol (name : String) : List (Option ℚ) :=
    ((cols.find? (fun nc => decide (nc.1 = name))).map Prod.snd).getD []
  let result : Except String (List (String × Cell)) :=
    match meanStage maxfrq reflev cols frq with
    | Except.error e => Except.error e
    | Except.ok s1 =>
      let s2 := if reflev = sSurface then
          let sg := upsert s1 sGt (Cell.txt (gtFromMeans surflevel
            (nanmean (getCol sHg3)) (nanmean (getCol sLg3))))
          APPROXIMATIONS.foldl (fun acc apx =>
            match (gvgApproximate surflevel (nanmean (getCol sHg3))
                (nanmean (getCol sLg3)) (nanmean (getCol sHg3w))
                (nanmean (getCol sLg3s)) (some apx)).2 with
            | Except.ok v => upsert acc (sGvgPrefix ++ apx.toLower) (Cell.num v)
            | Except.error _ => acc) sg
          -- the error branch is unreachable: every enumerated name is accepted
        else s1
      let s3 := upsert s2 sReflev (Cell.txt (some reflev))
      match cols.foldlM (stdStep reflev) s3 with
      | Except.error e => Except.error e
      | Except.ok s4 =>
        let s5 := cols.foldl (fun acc nc =>
          if nc.1 = sN1428 then acc
          else
            let acc1 := if reflev = sDatum then
                upsert acc (nc.1 ++ sSeSfx) (Cell.num (colSeDatum nc.2))
              else acc
            if reflev = sSurface then
              upsert acc1 (nc.1 ++ sSeSfx) (Cell.num (colSeSurface nc.2))
            else acc1) s4
        -- the measfrq column is re-reduced inside the standard-error loop
        let s6 := upsert s5 sMeasfrq (Cell.txt (some (maxfrq frq)))
        let s7 := cols.foldl (fun acc nc =>
          if nc.1 = sN1428 ∨ nc.1 = sMeasfrq then acc
          else upsert acc (nc.1 ++ sNyrsSfx)
            (Cell.num (some ((colNyrs nc.2 : ℚ))))) s6
        Except.ok (s7.map (fun kc => (renameKey kc.1, kc.2)))
  (warns, result)

/-! ## Lemmas for the aggregator claims -/

lemma lookup_upsert (l : List (String × Cell)) (k : String) (v : Cell) :
    (upsert l k v).lookup k = some v := by
  induction l with
  | nil => simp [upsert, List.lookup]
  | cons p rest ih =>
    obtain ⟨k', v'⟩ := p
    by_cases h : k' = k
    · simp [upsert, h, List.lookup]
    · have h' : (k == k') = false := by
        simp [Ne.symm h]
      simp [upsert, h, List.lookup, h', ih]

lemma filterMap_optionMap (f : ℚ → ℚ) (col : List (Option ℚ)) :
    col.filterMap (Option.map f) = (col.filterMap id).map f := by
  induction col with
  | nil => rfl
  | cons o rest ih => cases o <;> simp [ih]

lemma colValid_map (f : ℚ → ℚ) (col : List (Option ℚ)) :
    colValid (col.map (Option.map f)) = (colValid col).map f := by
  rw [colValid, colValid, List.filterMap_map, Function.id_comp]
  exact filterMap_optionMap f col

lemma sum_mul_list (c : ℚ) (xs : List ℚ) :
    (xs.map (fun v => v * c)).sum = xs.sum * c := by
  induction xs with
  | nil => simp
  | cons x l ih => simp [ih, add_mul]

lemma qmean_scale (c : ℚ) (xs : List ℚ) :
    qmean (xs.map (fun v => v * c)) = qmean xs * c := by
  rw [qmean, qmean, sum_mul_list, List.length_map]
  ring

lemma sampleVar_scale (c : ℚ) (xs : List ℚ) :
    sampleVar (xs.map (fun v => v * c)) = c^2 * sampleVar xs := by
  rw [sampleVar, sampleVar, List.length_map, qmean_scale]
  have hmap : (xs.map (fun v => v * c)).map
      (fun v => (v - qmean xs * c)^2) =
      (xs.map (fun v => (v - qmean xs)^2)).map (fun t => t * c^2) := by
    rw [List.map_map, List.map_map]
    congr 1
    funext v
    simp only [Function.comp_apply]
    ring
  rw [hmap, sum_mul_list]
  ring

lemma sampleVar_scale100 (xs : List ℚ) :
    sampleVar (xs.map (fun v => v * 100)) = 10000 * sampleVar xs := by
  rw [sampleVar_scale]
  norm_num

lemma stdFold_error (reflev : String) (h1 : reflev ≠ sDatum)
    (h2 : reflev ≠ sSurface) :
    ∀ (cols : List (String × List (Option ℚ))) (acc : List (String × Cell)),
      (∃ nc ∈ cols, ¬ (nc.1 = sN1428 ∨ nc.1 = sMeasfrq)) →
      cols.foldlM (stdStep reflev) acc = Except.error eInvalidReflev := by
  intro cols
  induction cols with
  | nil =>
    intro acc h
    simp at h
  | cons nc rest ih =>
    intro acc h
    rw [List.foldlM_cons]
    by_cases hskip : nc.1 = sN1428 ∨ nc.1 = sMeasfrq
    · rw [stdStep, if_pos hskip]
      show rest.foldlM (stdStep reflev) acc = Except.error eInvalidReflev
      apply ih
      rcases h with ⟨w, hw, hwp⟩
      rcases List.mem_cons.mp hw with rfl | hw'
      · exact absurd hskip hwp
      · exact ⟨w, hw', hwp⟩
    · rw [stdStep, if_neg hskip, if_neg h1, if_neg h2]
      rfl

lemma nanmean_of_valid_ne (col : List (Option ℚ)) (h : colValid col ≠ []) :
    nanmean col = some (qmean (colValid col)) := by
  have h' : (col.filterMap id).isEmpty = false := by
    cases hq : (col.filterMap id).isEmpty
    · rfl
    · exact absurd (List.isEmpty_iff.mp hq) h
  simp [nanmean, colValid, h']

lemma nanmean_of_valid_nil (col : List (Option ℚ)) (h : colValid col = []) :
    nanmean col = none := by
  have h' : (col.filterMap id).isEmpty = true := List.isEmpty_iff.mpr h
  simp [nanmean, h']

lemma meanCell_invalid (r name : String) (col : List (Option ℚ))
    (h1 : r ≠ sDatum) (h2 : r ≠ sSurface) :
    meanCell r name col = Except.ok (if name = sN1428
      then some ((nanmean col).map (fun m => (roundHE m : ℚ))) else none) := by
  simp [meanCell, h1, h2]

lemma meanStep_invalid_ok (r : String) (h1 : r ≠ sDatum) (h2 : r ≠ sSurface)
    (acc : List (String × Cell)) (nc : String × List (Option ℚ)) :
    ∃ acc2, meanStep r acc nc = Except.ok acc2 := by
  rw [meanStep, meanCell_invalid r nc.1 nc.2 h1 h2]
  exact ⟨_, rfl⟩

lemma meanFold_ok (r : String) (h1 : r ≠ sDatum) (h2 : r ≠ sSurface) :
    ∀ (cols : List (String × List (Option ℚ))) (acc : List (String × Cell)),
      ∃ s, cols.foldlM (meanStep r) acc = Except.ok s := by
  intro cols
  induction cols with
  | nil => exact fun acc => ⟨acc, rfl⟩
  | cons nc rest ih =>
    intro acc
    obtain ⟨acc2, hstep⟩ := meanStep_invalid_ok r h1 h2 acc nc
    obtain ⟨s, hs⟩ := ih acc2
    refine ⟨s, ?_⟩
    rw [List.foldlM_cons, hstep]
    show rest.foldlM (meanStep r) acc2 = Except.ok s
    exact hs

lemma meanStage_invalid_ok (maxfrq : List String → String) (r : String)
    (h1 : r ≠ sDatum) (h2 : r ≠ sSurface)
    (cols : List (String × List (Option ℚ))) (frq : List String) :
    ∃ s, meanStage maxfrq r cols frq = Except.ok s := by
  obtain ⟨s0, hs0⟩ := meanFold_ok r h1 h2 cols []
  refine ⟨upsert s0 sMeasfrq (Cell.txt (some (maxfrq frq))), ?_⟩
  rw [meanStage, hs0]
  rfl

/-! ## Claims C7, C8, C9 -/

/-- C7 (amended): for a numeric column (other than `n1428`) with at
least one valid value, the summary mean at reference level surface is
exactly the datum-level summary mean rescaled by 100 (the datum value is
the 2-decimal rounding of the mean, the surface value its half-even
integer rounding at centimeter scale, and these agree exactly).  For an
all-missing column the correspondence fails: the datum level stores a
missing value while the surface level raises, because Python's builtin
`round` without a decimals argument rejects NaN.  The `n1428` column of
any column with a valid value aggregates as a rounded unscaled mean under
every reference level; and the `measfrq` entry of any successful mean
stage is the external dominant-frequency reduction of the frequency
column, not an average. -/
theorem gxg_C7_surface_datum_scaling :
    (∀ name col, name ≠ sN1428 → colValid col ≠ [] →
      meanCell sSurface name col =
        (meanCell sDatum name col).map
          (Option.map (Option.map (fun v => v * 100)))) ∧
    (∀ name col, name ≠ sN1428 → colValid col = [] →
      meanCell sSurface name col = Except.error eRoundNaN ∧
      meanCell sDatum name col = Except.ok (some none)) ∧
    (∀ r col, colValid col ≠ [] →
      meanCell r sN1428 col =
        Except.ok (some (some ((roundHE (qmean (colValid col)) : ℚ))))) ∧
    (∀ (maxfrq : List String → String) (reflev : String)
      (cols : List (String × List (Option ℚ))) (frq : List String)
      (s : List (String × Cell)),
      meanStage maxfrq reflev cols frq = Except.ok s →
      s.lookup sMeasfrq = some (Cell.txt (some (maxfrq frq)))) := by
  have hsd : (sSurface = sDatum) = False := eq_false (by decide)
  have hss : (sSurface = sSurface) = True := eq_true rfl
  have hdd : (sDatum = sDatum) = True := eq_true rfl
  refine ⟨?_, ?_, ?_, ?_⟩
  · intro name col hname hcv
    have hnn : (name = sN1428) = False := eq_false hname
    simp only [meanCell, hsd, hss, hdd, hnn, if_false, if_true,
      nanmean_of_valid_ne col hcv]
    simp only [Except.map, Option.map_some', round2]
    rw [mul_comm (qmean (colValid col)) 100,
      div_mul_cancel₀ _ (by norm_num : (100:ℚ) ≠ 0)]
  · intro name col hname hcv
    have hnn : (name = sN1428) = False := eq_false hname
    constructor
    · simp only [meanCell, hsd, hss, hdd, hnn, if_false, if_true,
        nanmean_of_valid_nil col hcv]
    · simp only [meanCell, hsd, hss, hdd, hnn, if_false, if_true,
        nanmean_of_valid_nil col hcv]
      rfl
  · intro r col hcv
    by_cases hd : r = sDatum
    · simp [meanCell, hd, nanmean_of_valid_ne col hcv]
    · by_cases hs : r = sSurface
      · simp [meanCell, hs, hsd, nanmean_of_valid_ne col hcv]
      · simp [meanCell, hd, hs, nanmean_of_valid_ne col hcv]
  · intro maxfrq reflev cols frq s hs
    rw [meanStage] at hs
    cases hfold : cols.foldlM (meanStep reflev) [] with
    | error e =>
      rw [hfold] at hs
      exact Except.noConfusion
        (show (Except.error e : Except String (List (String × Cell)))
          = Except.ok s from hs)
    | ok s0 =>
      rw [hfold] at hs
      have hs' : Except.ok (upsert s0 sMeasfrq
          (Cell.txt (some (maxfrq frq)))) = Except.ok s := hs
      injection hs' with h
      rw [← h]
      exact lookup_upsert _ _ _

/-- C7, counterexample: for the all-missing column `[none]` the datum-level
mean stays a stored missing value while the surface-level mean raises
(Python builtin `round` without a decimals argument rejects NaN), so the
x100 correspondence between the two reference levels fails on all-missing
columns. -/
theorem gxg_C7_counterexample :
    meanCell sSurface sHg3 [none] = Except.error eRoundNaN ∧
    meanCell sDatum sHg3 [none] = Except.ok (some none) ∧
    (Except.error eRoundNaN :
        Except String (Option (Option ℚ))) ≠ Except.ok (some none) := by
  refine ⟨by with_unfolding_all rfl, by with_unfolding_all rfl,
    fun h => Except.noConfusion h⟩

/-- C7, witness: the scaling identity applied to the `hg3` column holding
the single value 0.835: datum mean 0.84 (two decimals), surface mean 84. -/
theorem gxg_C7_witness :
    (sHg3 ≠ sN1428 ∧ colValid [some 0.835] ≠ []) ∧
    meanCell sSurface sHg3 [some 0.835] =
      (meanCell sDatum sHg3 [some 0.835]).map
        (Option.map (Option.map (fun v => v * 100))) :=
  ⟨⟨by decide, by with_unfolding_all decide⟩,
   gxg_C7_surface_datum_scaling.1 sHg3 [some 0.835] (by decide)
     (by with_unfolding_all decide)⟩

/-- C8 (amended): for any column with at least two contributing years the
reported standard deviation is the rounded square root of the SAMPLE
variance (ddof = 1, denominator count-1, the `pandas` default) of the
valid values, not the population variance; the standard error is the
rounded square root of that variance divided by the count; the surface
values are exactly the datum values rescaled by 100; and the count of
contributing years is the number of non-missing years.  The `n1428` column
is skipped by the dispersion loop. -/
theorem gxg_C8_dispersion (col : List (Option ℚ))
    (h2 : 2 ≤ (colValid col).length) :
    colStdDatum col = some ((roundSqrtHE (10000 *
      (((colValid col).map (fun v => (v - qmean (colValid col))^2)).sum /
        (((colValid col).length : ℚ) - 1))) : ℚ) / 100) ∧
    colStdSurface col = (colStdDatum col).map (fun v => v * 100) ∧
    colSeDatum col = some ((roundSqrtHE (10000 *
      (sampleVar (colValid col) / (colValid col).length)) : ℚ) / 100) ∧
    colSeSurface col = (colSeDatum col).map (fun v => v * 100) ∧
    colNyrs col = (colValid col).length ∧
    (∀ reflev acc colN, stdStep reflev acc (sN1428, colN) = Except.ok acc) := by
  have hn : ¬ ((colValid col).length ≤ 1) := by omega
  have hvalid : colValid (col.map (Option.map (fun v => v * 100))) =
      (colValid col).map (fun v => v * 100) := colValid_map _ _
  have h100 : (100 : ℚ) ≠ 0 := by norm_num
  refine ⟨?_, ?_, ?_, ?_, rfl, ?_⟩
  · simp [colStdDatum, hn, sampleVar]
  · simp only [colStdSurface, colStdDatum, hvalid, List.length_map,
      sampleVar_scale100]
    rw [if_neg hn, if_neg hn]
    simp only [Option.map_some']
    rw [div_mul_cancel₀ _ h100]

  · simp [colSeDatum, hn]
  · simp only [colSeSurface, colSeDatum, hvalid, List.length_map,
      sampleVar_scale100]
    rw [if_neg hn, if_neg hn]
    simp only [Option.map_some']
    rw [mul_div_assoc, div_mul_cancel₀ _ h100]
  · intro reflev acc colN
    simp [stdStep]

set_option maxRecDepth 8000 in
/-- C8, counterexample: for the two-year column `[0, 1]` at datum level the
code reports a standard deviation of 0.71 (sample variance 1/2, ddof = 1).
The population standard deviation the claim asserts would round to 0.50
(population variance 1/4). -/
theorem gxg_C8_counterexample :
    colStdDatum [some 0, some 1] = some (71/100) ∧
    ((roundSqrtHE (10000 * (((0 - 1/2)^2 + (1 - 1/2)^2) / 2)) : ℚ) / 100)
      = 1/2 ∧
    (71/100 : ℚ) ≠ 1/2 := by
  refine ⟨?_, ?_, ?_⟩ <;> with_unfolding_all decide

set_option maxRecDepth 8000 in
/-- C8, witness: the surface standard deviation of the column `[0, 1]`
equals its datum standard deviation rescaled by 100. -/
theorem gxg_C8_witness :
    2 ≤ (colValid [some 0, some 1]).length ∧
    colStdSurface [some 0, some 1] =
      (colStdDatum [some 0, some 1]).map (fun v => v * 100) :=
  ⟨by with_unfolding_all decide,
   (gxg_C8_dispersion [some 0, some 1] (by with_unfolding_all decide)).2.1⟩

/-- C9: for every reference level outside datum/surface the summary raises
(the `else` of the standard-deviation loop, reached at the first standard
column), while passing `None` is non-fatal: it emits the warning and
produces exactly the result of passing datum. -/
theorem gxg_C9_reference_level (maxfrq : List String → String)
    (surflevel : ℚ) (cols : List (String × List (Option ℚ)))
    (frq : List String) (r : String)
    (hr1 : r ≠ sDatum) (hr2 : r ≠ sSurface)
    (hcols : ∃ nc ∈ cols, ¬ (nc.1 = sN1428 ∨ nc.1 = sMeasfrq)) :
    (gxgSummary maxfrq surflevel cols frq (some r)).2 =
      Except.error eInvalidReflev ∧
    (gxgSummary maxfrq surflevel cols frq none).2 =
      (gxgSummary maxfrq surflevel cols frq (some sDatum)).2 ∧
    (gxgSummary maxfrq surflevel cols frq none).1 = [wReflevNone] := by
  refine ⟨?_, rfl, rfl⟩
  obtain ⟨s1, hs1⟩ := meanStage_invalid_ok maxfrq r hr1 hr2 cols frq
  simp only [gxgSummary, hs1]
  rw [stdFold_error r hr1 hr2 cols _ hcols]

/-- The constant dominant-frequency reducer used in the C9 witness. -/
def maxfrqW : List String → String := fun _ => sMaxfrq

/-- C9, witness: with a one-column table and the unrecognised reference
level `XXX`, the summary raises the invalid-reference-level error. -/
theorem gxg_C9_witness :
    (gxgSummary maxfrqW 1 [(sHg3, [some 1, some 2])] [] (some sXXX)).2 =
      Except.error eInvalidReflev :=
  (gxg_C9_reference_level maxfrqW 1 [(sHg3, [some 1, some 2])] [] sXXX
    (by decide) (by decide)
    ⟨(sHg3, [some 1, some 2]), List.mem_singleton_self _, by decide⟩).1

example : roundHE (37.2 : ℚ) = 37 := by with_unfolding_all decide
example : roundHE (-0.5 : ℚ) = 0 := by with_unfolding_all decide
example : roundHE (1.5 : ℚ) = 2 := by with_unfolding_all decide
example : roundHE (2.5 : ℚ) = 2 := by with_unfolding_all decide
example : round2 (0.125 : ℚ) = 0.12 := by with_unfolding_all decide
example : gtClassify 0.15 0.40 = some cI := by with_unfolding_all decide
example : gtClassify 0.10 1.00 = some cV := by with_unfolding_all decide
example : gtSpecTable 0.10 1.00 = some cIII := by with_unfolding_all decide
example : gtClassify 1.50 1.00 = some cVIIst := by with_unfolding_all decide
example :
    (gvgApproximate 1 (some 0.8) (some 0.2) none none (some fSLUIJS82)).2 =
      .ok (some 37) := by with_unfolding_all rfl

end Acequia
